import Mathlib

/-!
Verification of the BladeBot dueling bot (Python source) against its
natural-language specification.  The Python code is shallowly embedded:
database rows become Lean structures, integer columns become `ℤ`,
float arithmetic (the ELO expected-score formula, computed with Python
floats) is idealised as real arithmetic, and fallible operations return
`Option`.
-/

namespace BladeBot

/-! ## ELO system (src/systems/elo_system.py, src/config.py) -/

/-- Config value `ELO_CONFIG['starting_elo']` (src/config.py). -/
def starting_elo : ℤ := 1000

/-- Config value `ELO_CONFIG['k_factor_new']`: K-factor for players with fewer
than `new_player_threshold` games played. -/
def k_factor_new : ℤ := 32

/-- Config value `ELO_CONFIG['k_factor_established']`: K-factor for players at or
above the games-played threshold. -/
def k_factor_established : ℤ := 16

/-- Config value `ELO_CONFIG['new_player_threshold']`. -/
def new_player_threshold : ℤ := 10

/-- Embedding of `ELOSystem._calculate_expected_score`: the standard ELO
expected score `1 / (1 + 10 ** ((opponent_elo - player_elo) / 400))`.
Python float arithmetic is idealised as real arithmetic. -/
noncomputable def expected_score (player_elo opponent_elo : ℤ) : ℝ :=
  1 / (1 + (10 : ℝ) ^ (((opponent_elo : ℝ) - (player_elo : ℝ)) / 400))

/-- Embedding of `ELOSystem.calculate_elo_change`: picks the per-participant
K-factors from the games-played threshold, shares the larger of the two, and
returns `(round (K * (1 - E)), -round (K * (1 - E)))`. -/
noncomputable def calculate_elo_change (winner_elo loser_elo winner_games loser_games : ℤ) :
    ℤ × ℤ :=
  let k_winner := if winner_games < new_player_threshold then k_factor_new
    else k_factor_established
  let k_loser := if loser_games < new_player_threshold then k_factor_new
    else k_factor_established
  let k_factor := max k_winner k_loser
  let expected_winner := expected_score winner_elo loser_elo
  let winner_change := round ((k_factor : ℝ) * (1 - expected_winner))
  (winner_change, -winner_change)

/-- C1: for every pair of integer ratings and every pair of games-played counts,
`calculate_elo_change` returns a winner delta and a loser delta that sum to
zero: the loser delta is exactly the negation of the winner delta. -/
theorem calculate_elo_change_zero_sum (w l wg lg : ℤ) :
    (calculate_elo_change w l wg lg).2 = -(calculate_elo_change w l wg lg).1 ∧
    (calculate_elo_change w l wg lg).1 + (calculate_elo_change w l wg lg).2 = 0 := by
  unfold calculate_elo_change
  exact ⟨rfl, add_neg_cancel _⟩

/-- C2: `calculate_elo_change` selects the single shared K-factor
`max K_winner K_loser` (32 below 10 games played, 16 otherwise) and returns
`winner_delta = round (K * (1 - E))` with
`E = 1 / (1 + 10 ^ ((loser_rating - winner_rating) / 400))`, the loser delta
being its negation; in particular for two 1000-rated players with 5 games each
it returns `(16, -16)`. -/
theorem calculate_elo_change_formula (w l wg lg : ℤ) :
    calculate_elo_change w l wg lg =
      (round (((max (if wg < 10 then (32 : ℤ) else 16) (if lg < 10 then (32 : ℤ) else 16) : ℤ) : ℝ) *
          (1 - 1 / (1 + (10 : ℝ) ^ (((l : ℝ) - (w : ℝ)) / 400)))),
       -round (((max (if wg < 10 then (32 : ℤ) else 16) (if lg < 10 then (32 : ℤ) else 16) : ℤ) : ℝ) *
          (1 - 1 / (1 + (10 : ℝ) ^ (((l : ℝ) - (w : ℝ)) / 400))))) ∧
    calculate_elo_change 1000 1000 5 5 = (16, -16) := by
  constructor
  · rfl
  · have hexp : expected_score 1000 1000 = 1 / 2 := by
      unfold expected_score
      rw [show (((1000 : ℤ) : ℝ) - ((1000 : ℤ) : ℝ)) / 400 = 0 by norm_num,
        Real.rpow_zero]
      norm_num
    unfold calculate_elo_change
    rw [hexp]
    norm_num [new_player_threshold, k_factor_new, k_factor_established]

lemma expected_score_pos (p q : ℤ) : 0 < expected_score p q := by
  unfold expected_score
  have h := Real.rpow_pos_of_pos (show (0 : ℝ) < 10 by norm_num)
    (((q : ℝ) - (p : ℝ)) / 400)
  positivity

lemma expected_score_lt_one (p q : ℤ) : expected_score p q < 1 := by
  unfold expected_score
  have h := Real.rpow_pos_of_pos (show (0 : ℝ) < 10 by norm_num)
    (((q : ℝ) - (p : ℝ)) / 400)
  rw [div_lt_one (by linarith)]
  linarith

lemma round_le_round {x y : ℝ} (h : x ≤ y) : round x ≤ round y := by
  rw [round_eq, round_eq]
  exact Int.floor_le_floor (by linarith)

/-- C10: the winner delta of `calculate_elo_change` always lies between 0 and
the selected K-factor inclusive (and the loser delta between `-K` and 0): the
winner never loses rating from a win and the loser never gains from a loss.
Moreover, with a large enough rating advantage the winner delta is exactly 0,
so a recorded win can leave both ratings unchanged (witnessed at
winner 3000, loser 0, both with 10 games played). -/
theorem calculate_elo_change_bounds (w l wg lg : ℤ) :
    (0 ≤ (calculate_elo_change w l wg lg).1 ∧
     (calculate_elo_change w l wg lg).1 ≤
       max (if wg < new_player_threshold then k_factor_new else k_factor_established)
         (if lg < new_player_threshold then k_factor_new else k_factor_established) ∧
     -(max (if wg < new_player_threshold then k_factor_new else k_factor_established)
         (if lg < new_player_threshold then k_factor_new else k_factor_established)) ≤
       (calculate_elo_change w l wg lg).2 ∧
     (calculate_elo_change w l wg lg).2 ≤ 0) ∧
    calculate_elo_change 3000 0 10 10 = (0, 0) := by
  constructor
  · set k : ℤ := max (if wg < new_player_threshold then k_factor_new else k_factor_established)
      (if lg < new_player_threshold then k_factor_new else k_factor_established) with hk
    have hkpos : (0 : ℤ) < k := by
      rw [hk]
      unfold k_factor_new k_factor_established
      rcases lt_or_le wg new_player_threshold with h1 | h1 <;>
        rcases lt_or_le lg new_player_threshold with h2 | h2 <;>
        simp [h1, h2, not_lt.mpr]
    have hE1 : expected_score w l < 1 := expected_score_lt_one w l
    have hE0 : 0 < expected_score w l := expected_score_pos w l
    have hle : (0 : ℝ) ≤ (k : ℝ) * (1 - expected_score w l) := by
      have : (0 : ℝ) < (k : ℝ) := by exact_mod_cast hkpos
      nlinarith
    have hub : (k : ℝ) * (1 - expected_score w l) ≤ (k : ℝ) := by
      have : (0 : ℝ) < (k : ℝ) := by exact_mod_cast hkpos
      nlinarith
    have hfst : (calculate_elo_change w l wg lg).1 =
        round ((k : ℝ) * (1 - expected_score w l)) := by
      simp only [calculate_elo_change, hk]
    have hsnd : (calculate_elo_change w l wg lg).2 =
        -round ((k : ℝ) * (1 - expected_score w l)) := by
      simp only [calculate_elo_change, hk]
    have hlow : 0 ≤ round ((k : ℝ) * (1 - expected_score w l)) := by
      have := round_le_round hle
      rwa [round_zero] at this
    have hhigh : round ((k : ℝ) * (1 - expected_score w l)) ≤ k := by
      have := round_le_round hub
      rwa [round_intCast] at this
    refine ⟨by rw [hfst]; exact hlow, by rw [hfst]; exact hhigh, ?_, ?_⟩
    · rw [hsnd]
      omega
    · rw [hsnd]
      omega
  · have hexp : ((10 : ℝ) : ℝ) ^ ((((0 : ℤ) : ℝ) - ((3000 : ℤ) : ℝ)) / 400) < 1 / 100 := by
      rw [show ((((0 : ℤ) : ℝ) - ((3000 : ℤ) : ℝ)) / 400) = (-15 : ℝ) / 2 by norm_num]
      calc (10 : ℝ) ^ ((-15 : ℝ) / 2) < (10 : ℝ) ^ (((-2 : ℤ) : ℝ)) := by
            rw [Real.rpow_lt_rpow_left_iff (by norm_num)]
            norm_num
        _ = 1 / 100 := by
            rw [Real.rpow_intCast]
            norm_num
    have hpos : (0 : ℝ) < (10 : ℝ) ^ ((((0 : ℤ) : ℝ) - ((3000 : ℤ) : ℝ)) / 400) :=
      Real.rpow_pos_of_pos (by norm_num) _
    set t : ℝ := (10 : ℝ) ^ ((((0 : ℤ) : ℝ) - ((3000 : ℤ) : ℝ)) / 400) with ht
    have hE : expected_score 3000 0 = 1 / (1 + t) := by
      unfold expected_score
      rw [ht]
    have h1t : (0 : ℝ) < 1 + t := by linarith
    have hdelta : (16 : ℝ) * (1 - expected_score 3000 0) < 1 / 2 := by
      rw [hE]
      have hfrac : 1 - 1 / (1 + t) = t / (1 + t) := by
        field_simp
      rw [hfrac]
      have : t / (1 + t) ≤ t := by
        apply div_le_self (le_of_lt hpos)
        linarith
      calc (16 : ℝ) * (t / (1 + t)) ≤ 16 * t := by nlinarith
        _ < 16 * (1 / 100) := by nlinarith
        _ < 1 / 2 := by norm_num
    have hdelta0 : (0 : ℝ) ≤ (16 : ℝ) * (1 - expected_score 3000 0) := by
      have := expected_score_lt_one 3000 0
      nlinarith
    unfold calculate_elo_change
    norm_num [new_player_threshold, k_factor_new, k_factor_established]
    exact ⟨by linarith, hdelta⟩

/-! ## User match statistics (src/systems/user_system.py,
src/commands/admin_commands.py) -/

/-- The per-user columns touched when a match is recorded or voided
(table `users`). -/
structure UserStats where
  elo_rating : ℤ
  wins : ℤ
  losses : ℤ
  games_played : ℤ
deriving DecidableEq, Repr

/-- Embedding of `UserSystem.update_user_stats`: adds a win or a loss,
increments games played, applies the rating delta and clamps the stored
rating at a floor of 0 (`new_elo = max(0, new_elo)`). -/
def update_user_stats (user : UserStats) (won : Bool) (elo_change : ℤ) : UserStats :=
  { wins := user.wins + (if won then 1 else 0)
    losses := user.losses + (if won then 0 else 1)
    games_played := user.games_played + 1
    elo_rating := max 0 (user.elo_rating + elo_change) }

/-- The columns of a `matches` row consulted by the void operation. -/
structure MatchRow where
  elo_change_winner : ℤ
  elo_change_loser : ℤ
deriving DecidableEq, Repr

/-- Recording a match (as done in `MatchSystem.record_official_match` /
`record_bm_match`): the winner is updated with `won=True` and the winner
delta, the loser with `won=False` and the loser delta. -/
def record_match (winner loser : UserStats) (m : MatchRow) : UserStats × UserStats :=
  (update_user_stats winner true m.elo_change_winner,
   update_user_stats loser false m.elo_change_loser)

/-- Embedding of the winner-side UPDATE in
`AdminCommands._void_match_operation`: subtracts the stored winner delta and
decrements wins and games played. -/
def void_reverse_winner (user : UserStats) (elo_change_winner : ℤ) : UserStats :=
  { user with
    elo_rating := user.elo_rating - elo_change_winner
    wins := user.wins - 1
    games_played := user.games_played - 1 }

/-- Embedding of the loser-side UPDATE in
`AdminCommands._void_match_operation`: subtracts the stored loser delta and
decrements losses and games played. -/
def void_reverse_loser (user : UserStats) (elo_change_loser : ℤ) : UserStats :=
  { user with
    elo_rating := user.elo_rating - elo_change_loser
    losses := user.losses - 1
    games_played := user.games_played - 1 }

/-- Voiding a match: both participants get the stored deltas reversed. -/
def void_match (winner loser : UserStats) (m : MatchRow) : UserStats × UserStats :=
  (void_reverse_winner winner m.elo_change_winner,
   void_reverse_loser loser m.elo_change_loser)

/-- C3 counterexample: record-then-void is not a no-op on user state.  A loser
rated 5 losing 16 points is clamped to rating 0 when the match is recorded,
and voiding the match then restores rating 16, not 5. -/
theorem record_void_not_noop :
    void_match (record_match ⟨1000, 0, 0, 0⟩ ⟨5, 0, 0, 0⟩ ⟨16, -16⟩).1
        (record_match ⟨1000, 0, 0, 0⟩ ⟨5, 0, 0, 0⟩ ⟨16, -16⟩).2 ⟨16, -16⟩ ≠
      (⟨1000, 0, 0, 0⟩, ⟨5, 0, 0, 0⟩) := by
  decide

/-- C3 (amended): provided neither participant's post-delta rating is clamped
(both `rating + delta ≥ 0`), recording a match and then voiding it restores
both users' rating, wins, losses and games played exactly. -/
theorem record_void_noop_of_no_clamp (winner loser : UserStats) (m : MatchRow)
    (hw : 0 ≤ winner.elo_rating + m.elo_change_winner)
    (hl : 0 ≤ loser.elo_rating + m.elo_change_loser) :
    void_match (record_match winner loser m).1 (record_match winner loser m).2 m =
      (winner, loser) := by
  obtain ⟨we, ww, wlo, wgp⟩ := winner
  obtain ⟨le2, lw, llo, lgp⟩ := loser
  obtain ⟨cw, cl⟩ := m
  simp only [record_match, void_match, update_user_stats, void_reverse_winner,
    void_reverse_loser, Prod.mk.injEq, UserStats.mk.injEq] at *
  have hw2 : max 0 (we + cw) = we + cw := max_eq_right hw
  have hl2 : max 0 (le2 + cl) = le2 + cl := max_eq_right hl
  rw [hw2, hl2]
  refine ⟨⟨?_, ?_, ?_, ?_⟩, ?_, ?_, ?_, ?_⟩ <;> simp

/-- Witness for the amended C3 at a concrete input with no clamping. -/
theorem record_void_noop_witness :
    (0 : ℤ) ≤ (1000 : ℤ) + 16 ∧ (0 : ℤ) ≤ (50 : ℤ) + (-16) ∧
    void_match (record_match ⟨1000, 2, 3, 5⟩ ⟨50, 1, 1, 2⟩ ⟨16, -16⟩).1
        (record_match ⟨1000, 2, 3, 5⟩ ⟨50, 1, 1, 2⟩ ⟨16, -16⟩).2 ⟨16, -16⟩ =
      (⟨1000, 2, 3, 5⟩, ⟨50, 1, 1, 2⟩) :=
  ⟨by decide, by decide,
    record_void_noop_of_no_clamp ⟨1000, 2, 3, 5⟩ ⟨50, 1, 1, 2⟩ ⟨16, -16⟩
      (by decide) (by decide)⟩

/-- C6: after every match-stats update the stored rating is at least 0: the
post-delta rating is clamped to a floor of 0 before being stored, so no
sequence of recorded matches can make a stored rating negative. -/
theorem update_user_stats_elo_nonneg (user : UserStats) (won : Bool) (elo_change : ℤ) :
    0 ≤ (update_user_stats user won elo_change).elo_rating := by
  simp [update_user_stats]

/-! ## Challenge ledger (src/database/queries.py, src/database/models.py,
src/systems/challenge_system.py) -/

/-- A row of the `challenges` table (the columns the embedded operations
consult).  `expires_at` timestamps are embedded as integers ordered like the
stored datetimes. -/
structure ChallengeRow where
  challenger_id : ℤ
  challenged_id : Option ℤ
  challenge_type : String
  status : String
  expires_at : ℤ
deriving DecidableEq, Repr

/-- The WHERE clause of the UPDATE in
`DatabaseQueries.cleanup_expired_challenges`:
`status = 'pending' AND expires_at <= datetime('now')`. -/
def sweep_matches (now : ℤ) (c : ChallengeRow) : Bool :=
  c.status = "pending" && c.expires_at ≤ now

/-- Embedding of `DatabaseQueries.cleanup_expired_challenges`: sets
`status = 'expired'` on every row matching the WHERE clause and returns the
updated table together with `cursor.rowcount`, the number of rows changed. -/
def cleanup_expired_challenges (now : ℤ) (rows : List ChallengeRow) :
    List ChallengeRow × ℕ :=
  (rows.map (fun c => if sweep_matches now c then { c with status := "expired" } else c),
   (rows.filter (fun c => sweep_matches now c)).length)

lemma sweep_matches_after (now : ℤ) (c : ChallengeRow) :
    sweep_matches now
      (if sweep_matches now c then { c with status := "expired" } else c) = false := by
  have hne : ¬ (("expired" : String) = "pending") := by decide
  cases h : sweep_matches now c
  · simp [h]
  · simp [sweep_matches, hne]

/-- C5: one sweep marks exactly the pending rows whose expiry has passed as
expired (stated positionally), reports their number, and an immediately
repeated sweep at the same instant changes no row and reports a count of
zero. -/
theorem cleanup_expired_challenges_idempotent (now : ℤ) (rows : List ChallengeRow) :
    (∀ i : ℕ, ((cleanup_expired_challenges now rows).1).get? i =
        (rows.get? i).map
          (fun c => if sweep_matches now c then { c with status := "expired" } else c)) ∧
    (cleanup_expired_challenges now rows).2 =
      (rows.filter (fun c => sweep_matches now c)).length ∧
    cleanup_expired_challenges now (cleanup_expired_challenges now rows).1 =
      ((cleanup_expired_challenges now rows).1, 0) := by
  refine ⟨?_, rfl, ?_⟩
  · intro i
    simp [cleanup_expired_challenges, List.getElem?_map]
  · unfold cleanup_expired_challenges
    set f : ChallengeRow → ChallengeRow :=
      fun c => if sweep_matches now c then { c with status := "expired" } else c with hf
    have hstate : (rows.map f).map f = rows.map f := by
      rw [List.map_map]
      apply List.map_congr_left
      intro a _
      show f (f a) = f a
      rw [hf]
      simp only [sweep_matches_after now a, Bool.false_eq_true, if_false]
    have hcount : (rows.map f).filter (fun c => sweep_matches now c) = [] := by
      rw [List.filter_eq_nil_iff]
      intro a ha
      obtain ⟨b, _, rfl⟩ := List.mem_map.mp ha
      simp [sweep_matches_after now b]
    simp only [hstate, hcount, List.length_nil, Prod.mk.injEq]

/-! ## Rank ladder (src/config.py) -/

/-- Config list `TIER_HIERARCHY` (lowest tier first). -/
def TIER_HIERARCHY : List String := ["Bronze", "Silver", "Gold", "Platinum", "Diamond"]

/-- Config dict `NUMERAL_HIERARCHY` (per tier, lowest numeral first; the source
only ever indexes it with a tier of `TIER_HIERARCHY`, so the default branch is
unreachable). -/
def NUMERAL_HIERARCHY (tier : String) : List String :=
  if tier = "Bronze" then ["IV", "III", "II", "I"]
  else if tier = "Silver" then ["IV", "III", "II", "I"]
  else if tier = "Gold" then ["III", "II", "I"]
  else if tier = "Platinum" then ["III", "II", "I"]
  else if tier = "Diamond" then ["II", "I"]
  else []

/-- Python `list.index`: index of the first occurrence, `none` embedding the
`ValueError` raised when the element is absent. -/
def list_index : List String → String → Option ℕ
  | [], _ => none
  | a :: rest, x => if a = x then some 0 else (list_index rest x).map (· + 1)

/-- Embedding of `get_next_rank` (src/config.py).  The outer `Option` models a
Python exception (``list.index`` on an absent element); the inner `Option`
models the `(None, None)` return used for "no next rank". -/
def get_next_rank (current_tier current_numeral : String) :
    Option (Option (String × String)) :=
  if current_tier = "Guest" ∨ current_tier = "Evaluation" then
    some (some ("Bronze", "IV"))
  else if current_tier ∉ TIER_HIERARCHY then
    some none
  else
    match list_index (NUMERAL_HIERARCHY current_tier) current_numeral with
    | none => none
    | some current_numeral_idx =>
      if current_numeral_idx < (NUMERAL_HIERARCHY current_tier).length - 1 then
        some (some (current_tier,
          (NUMERAL_HIERARCHY current_tier).getD (current_numeral_idx + 1) ""))
      else
        match list_index TIER_HIERARCHY current_tier with
        | none => none
        | some current_tier_idx =>
          if current_tier_idx < TIER_HIERARCHY.length - 1 then
            some (some (TIER_HIERARCHY.getD (current_tier_idx + 1) "",
              (NUMERAL_HIERARCHY (TIER_HIERARCHY.getD (current_tier_idx + 1) "")).getD 0 ""))
          else
            some none

/-- Embedding of `is_rank_above` (src/config.py): rank 1 is directly above
rank 2 iff rank 2's next rank is exactly rank 1. -/
def is_rank_above (tier1 numeral1 tier2 numeral2 : String) : Option Bool :=
  (get_next_rank tier2 numeral2).map
    (fun next => decide (next = some (tier1, numeral1)))

/-- The full ladder, lowest rank first: each tier's numerals in ascending
order, tiers in ascending order (16 ranks, `("Bronze", "IV")` lowest,
`("Diamond", "I")` highest). -/
def LADDER : List (String × String) :=
  (TIER_HIERARCHY.map (fun tier => (NUMERAL_HIERARCHY tier).map (fun n => (tier, n)))).flatten

lemma ladder_next_aux :
    (LADDER.all fun r =>
      match get_next_rank r.1 r.2 with
      | some (some r2) =>
        decide (r2 ∈ LADDER) && decide (LADDER.indexOf r2 = LADDER.indexOf r + 1)
      | some none => decide (r = ("Diamond", "I"))
      | none => false) = true := by
  decide

lemma ladder_next_next_aux :
    (LADDER.all fun r =>
      match get_next_rank r.1 r.2 with
      | some (some r2) =>
        match get_next_rank r2.1 r2.2 with
        | some (some r3) => decide (LADDER.indexOf r < LADDER.indexOf r3)
        | _ => true
      | _ => true) = true := by
  decide

/-- C7: the ladder successor function is total and cycle-free.  Every rank of
the configured hierarchy either has a well-defined immediate successor (the
rank one position higher in the ladder, so iterating `get_next_rank` strictly
climbs and never revisits a rank) or is the ceiling `Diamond I`;
`get_next_rank (get_next_rank R)` is strictly higher than every non-ceiling
`R` whenever it exists; and the Guest and Evaluation placeholder tiers map to
the lowest rank `Bronze IV` as their next rank. -/
theorem ladder_total_and_monotone :
    (∀ r ∈ LADDER,
      (∃ r2, get_next_rank r.1 r.2 = some (some r2) ∧ r2 ∈ LADDER ∧
        LADDER.indexOf r2 = LADDER.indexOf r + 1) ∨
      (r = ("Diamond", "I") ∧ get_next_rank r.1 r.2 = some none)) ∧
    (∀ r ∈ LADDER, ∀ r2 r3, get_next_rank r.1 r.2 = some (some r2) →
      get_next_rank r2.1 r2.2 = some (some r3) →
      LADDER.indexOf r < LADDER.indexOf r3) ∧
    (∀ numeral : String,
      get_next_rank "Guest" numeral = some (some ("Bronze", "IV")) ∧
      get_next_rank "Evaluation" numeral = some (some ("Bronze", "IV"))) := by
  refine ⟨?_, ?_, ?_⟩
  · intro r hr
    have h := List.all_eq_true.mp ladder_next_aux r hr
    rcases hnext : get_next_rank r.1 r.2 with _ | o
    · rw [hnext] at h
      exact absurd h (by simp)
    · rcases o with _ | r2
      · rw [hnext] at h
        exact Or.inr ⟨of_decide_eq_true h, rfl⟩
      · rw [hnext] at h
        simp only [Bool.and_eq_true, decide_eq_true_eq] at h
        exact Or.inl ⟨r2, rfl, h.1, h.2⟩
  · intro r hr r2 r3 h2 h3
    have h := List.all_eq_true.mp ladder_next_next_aux r hr
    rw [h2] at h
    have h5 : (match get_next_rank r2.1 r2.2 with
        | some (some r3) => decide (LADDER.indexOf r < LADDER.indexOf r3)
        | _ => true) = true := h
    rw [h3] at h5
    exact of_decide_eq_true h5
  · intro numeral
    constructor <;> rfl

/-- Witness for C7 at the concrete rank `Bronze IV` and its two successors. -/
theorem ladder_total_and_monotone_witness :
    (("Bronze", "IV") : String × String) ∈ LADDER ∧
    get_next_rank "Bronze" "IV" = some (some ("Bronze", "III")) ∧
    get_next_rank "Bronze" "III" = some (some ("Bronze", "II")) ∧
    LADDER.indexOf (("Bronze", "IV") : String × String) <
      LADDER.indexOf (("Bronze", "II") : String × String) :=
  ⟨by decide, by decide, by decide,
    ladder_total_and_monotone.2.1 ("Bronze", "IV") (by decide) ("Bronze", "III")
      ("Bronze", "II") (by decide) (by decide)⟩

/-! ## Rank capacities and promotion legality (src/config.py,
src/database/queries.py, src/systems/ranking_system.py) -/

/-- Config dict `RANK_STRUCTURE`, restricted to the `capacities` tables the
embedded code reads.  `none` embeds the `KeyError` raised by
`RANK_STRUCTURE[tier]` for a tier outside the table. -/
def RANK_STRUCTURE_capacities (tier : String) : Option (List (String × ℤ)) :=
  if tier = "Diamond" then some [("I", 1), ("II", 3)]
  else if tier = "Platinum" then some [("I", 1), ("II", 3), ("III", 5)]
  else if tier = "Gold" then some [("I", 2), ("II", 6), ("III", 10)]
  else if tier = "Silver" then some [("I", 2), ("II", 5), ("III", 9), ("IV", 12)]
  else if tier = "Bronze" then some [("I", 3), ("II", 8), ("III", 12), ("IV", 18)]
  else none

/-- The `users` columns consulted by the capacity and promotion logic. -/
structure UserRow where
  discord_id : ℤ
  tier : String
  rank_numeral : String
  is_active : Bool
deriving DecidableEq, Repr

/-- The `SELECT COUNT(*) FROM users WHERE tier = ? AND rank_numeral = ? AND
is_active = TRUE` query of `get_rank_capacity_info`. -/
def rank_occupancy (users : List UserRow) (tier numeral : String) : ℤ :=
  ((users.filter
    (fun u => u.tier = tier && u.rank_numeral = numeral && u.is_active)).length : ℤ)

/-- The capacity for a rank: `RANK_STRUCTURE[tier]['capacities'].get(numeral, 0)`
(spelled with a total lookup; only used for tiers inside the table). -/
def rank_capacity (tier numeral : String) : ℤ :=
  (((RANK_STRUCTURE_capacities tier).getD []).lookup numeral).getD 0

/-- The dict returned by `DatabaseQueries.get_rank_capacity_info` (the
float-valued `usage_percent` display field is omitted). -/
structure CapacityInfo where
  current_count : ℤ
  capacity : ℤ
  available_spots : ℤ
  is_full : Bool
deriving DecidableEq, Repr

/-- Embedding of `DatabaseQueries.get_rank_capacity_info`; `none` embeds the
`KeyError` for a tier outside `RANK_STRUCTURE`. -/
def get_rank_capacity_info (users : List UserRow) (tier numeral : String) :
    Option CapacityInfo :=
  match RANK_STRUCTURE_capacities tier with
  | none => none
  | some caps =>
    some { current_count := rank_occupancy users tier numeral
           capacity := (caps.lookup numeral).getD 0
           available_spots :=
             max 0 ((caps.lookup numeral).getD 0 - rank_occupancy users tier numeral)
           is_full := (caps.lookup numeral).getD 0 ≤ rank_occupancy users tier numeral }

/-- Embedding of the rank-logic core of `RankingSystem.can_rank_change_occur`
(both users found in the database).  It requires the loser's rank to be
directly above the winner's, then rejects when the rank the loser moves into
(the winner's current rank) is full; the capacity info fetched for the loser's
current rank is unused in the source.  `none` embeds an escaping exception. -/
def can_rank_change_occur (users : List UserRow) (winner loser : UserRow) :
    Option (Bool × String) :=
  match is_rank_above loser.tier loser.rank_numeral winner.tier winner.rank_numeral with
  | none => none
  | some above =>
    if !above then
      some (false, "Winner rank is not directly below loser rank")
    else
      match get_rank_capacity_info users loser.tier loser.rank_numeral with
      | none => none
      | some _capacity_info =>
        match get_rank_capacity_info users winner.tier winner.rank_numeral with
        | none => none
        | some loser_capacity_info =>
          if loser_capacity_info.is_full then
            some (false, "No space available")
          else
            some (true, "Rank change is valid")

/-- The two rank UPDATEs of `RankingSystem.confirm_rank_change` for a
promotion: the winner takes the loser's rank and the loser takes the
winner's. -/
def swap_ranks (users : List UserRow) (winner loser : UserRow) : List UserRow :=
  users.map (fun u =>
    if u.discord_id = winner.discord_id then
      { u with tier := loser.tier, rank_numeral := loser.rank_numeral }
    else if u.discord_id = loser.discord_id then
      { u with tier := winner.tier, rank_numeral := winner.rank_numeral }
    else u)

lemma tier_getD_mem : ∀ j : ℕ, j < 5 → TIER_HIERARCHY.getD j "" ∈ TIER_HIERARCHY := by
  decide

lemma next_rank_tier_mem {t n t2 n2 : String}
    (h : get_next_rank t n = some (some (t2, n2))) : t2 ∈ TIER_HIERARCHY := by
  unfold get_next_rank at h
  split at h
  · simp only [Option.some.injEq, Prod.mk.injEq] at h
    rw [← h.1]
    decide
  · split at h
    · simp at h
    · rename_i hguest hmem
      split at h
      · simp at h
      · split at h
        · simp only [Option.some.injEq, Prod.mk.injEq] at h
          rw [← h.1]
          exact not_not.mp hmem
        · split at h
          · simp at h
          · split at h
            · rename_i j hj
              simp only [Option.some.injEq, Prod.mk.injEq] at h
              rw [← h.1]
              apply tier_getD_mem
              simp only [TIER_HIERARCHY, List.length_cons, List.length_nil] at hj
              omega
            · simp at h

lemma is_rank_above_iff {t1 n1 t2 n2 : String} :
    is_rank_above t1 n1 t2 n2 = some true ↔
      get_next_rank t2 n2 = some (some (t1, n1)) := by
  unfold is_rank_above
  rcases hg : get_next_rank t2 n2 with _ | next
  · simp
  · simp

lemma is_rank_above_tier_mem {t1 n1 t2 n2 : String}
    (h : is_rank_above t1 n1 t2 n2 = some true) : t1 ∈ TIER_HIERARCHY :=
  next_rank_tier_mem (is_rank_above_iff.mp h)

lemma get_rank_capacity_info_of_mem {t : String} (ht : t ∈ TIER_HIERARCHY)
    (users : List UserRow) (n : String) :
    get_rank_capacity_info users t n =
      some { current_count := rank_occupancy users t n
             capacity := rank_capacity t n
             available_spots := max 0 (rank_capacity t n - rank_occupancy users t n)
             is_full := decide (rank_capacity t n ≤ rank_occupancy users t n) } := by
  fin_cases ht <;> rfl

lemma swap_filter_balance (W L : ℤ) (wt wn lt ln : String)
    (hne : ¬(lt = wt ∧ ln = wn)) (hWL : W ≠ L) :
    ∀ users : List UserRow,
      (∀ u ∈ users, u.discord_id = W →
        u.tier = wt ∧ u.rank_numeral = wn ∧ u.is_active = true) →
      (∀ u ∈ users, u.discord_id = L →
        u.tier = lt ∧ u.rank_numeral = ln ∧ u.is_active = true) →
      ((users.map (fun u =>
          if u.discord_id = W then { u with tier := lt, rank_numeral := ln }
          else if u.discord_id = L then { u with tier := wt, rank_numeral := wn }
          else u)).filter
            (fun u => u.tier = wt && u.rank_numeral = wn && u.is_active)).length +
        (users.filter (fun u => u.discord_id = W)).length =
      (users.filter (fun u => u.tier = wt && u.rank_numeral = wn && u.is_active)).length +
        (users.filter (fun u => u.discord_id = L)).length := by
  intro users
  induction users with
  | nil => intro _ _; rfl
  | cons u rest ih =>
    intro hWrows hLrows
    have ihr := ih (fun v hv => hWrows v (List.mem_cons_of_mem u hv))
      (fun v hv => hLrows v (List.mem_cons_of_mem u hv))
    by_cases hu : u.discord_id = W
    · obtain ⟨ht, hn, hact⟩ := hWrows u (List.mem_cons_self u rest) hu
      have hnotL : ¬ (u.discord_id = L) := by rw [hu]; exact hWL
      simp only [List.map_cons, List.filter_cons, hu, hnotL, ht, hn, hact]
      simp [hne, hWL]
      omega
    · by_cases hl : u.discord_id = L
      · obtain ⟨ht, hn, hact⟩ := hLrows u (List.mem_cons_self u rest) hl
        have hne2 : ¬ (u.tier = wt ∧ u.rank_numeral = wn) := by
          rw [ht, hn]; exact hne
        have hLW : L ≠ W := Ne.symm hWL
        simp only [List.map_cons, List.filter_cons, hu, hl, hact]
        simp [hne2, hLW]
        omega
      · simp only [List.map_cons, List.filter_cons, hu, hl]
        by_cases hp : (u.tier = wt ∧ u.rank_numeral = wn ∧ u.is_active = true)
        · simp [hu, hl, hp.1, hp.2.1, hp.2.2]
          omega
        · have hp2 : ¬ ((u.tier = wt : Bool) && (u.rank_numeral = wn : Bool) && u.is_active) = true := by
            simp only [Bool.and_eq_true, decide_eq_true_eq]
            tauto
          simp [hu, hl, hp2]
          omega

/-- C4: the promotion check returns true only if the loser's rank is directly
above the winner's; and (for a winner rank inside the tier table) it returns
true iff additionally the rank the loser is moving into — the winner's current
rank — is strictly below its capacity at its post-swap occupancy.  The third
conjunct substantiates the "post-swap" reading: swapping the two users' ranks
leaves the occupancy of the winner's old rank unchanged (the winner leaves it
and the loser enters it), so the occupancy the check compares against capacity
is exactly the post-swap occupancy. -/
theorem can_rank_change_occur_spec :
    (∀ (users : List UserRow) (winner loser : UserRow) (msg : String),
      can_rank_change_occur users winner loser = some (true, msg) →
      is_rank_above loser.tier loser.rank_numeral winner.tier winner.rank_numeral =
        some true) ∧
    (∀ (users : List UserRow) (winner loser : UserRow),
      winner.tier ∈ TIER_HIERARCHY →
      ((can_rank_change_occur users winner loser).map Prod.fst = some true ↔
        (is_rank_above loser.tier loser.rank_numeral winner.tier winner.rank_numeral =
          some true ∧
         rank_occupancy users winner.tier winner.rank_numeral <
           rank_capacity winner.tier winner.rank_numeral))) ∧
    (∀ (users : List UserRow) (winner loser : UserRow),
      (∀ u ∈ users, u.discord_id = winner.discord_id →
        u.tier = winner.tier ∧ u.rank_numeral = winner.rank_numeral ∧
          u.is_active = true) →
      (∀ u ∈ users, u.discord_id = loser.discord_id →
        u.tier = loser.tier ∧ u.rank_numeral = loser.rank_numeral ∧
          u.is_active = true) →
      winner.discord_id ≠ loser.discord_id →
      ¬ (loser.tier = winner.tier ∧ loser.rank_numeral = winner.rank_numeral) →
      (users.filter (fun u => u.discord_id = winner.discord_id)).length =
        (users.filter (fun u => u.discord_id = loser.discord_id)).length →
      rank_occupancy (swap_ranks users winner loser) winner.tier winner.rank_numeral =
        rank_occupancy users winner.tier winner.rank_numeral) := by
  refine ⟨?_, ?_, ?_⟩
  · intro users winner loser msg h
    unfold can_rank_change_occur at h
    split at h
    · exact absurd h (by simp)
    · rename_i above ha
      split at h
      · simp at h
      · rename_i hnot
        have habove : above = true := by
          revert hnot
          cases above <;> simp
        rw [habove] at ha
        exact ha
  · intro users winner loser hw
    constructor
    · intro h
      unfold can_rank_change_occur at h
      split at h
      · simp at h
      · rename_i above ha
        split at h
        · simp at h
        · rename_i hnot
          have habove : above = true := by
            revert hnot
            cases above <;> simp
          rw [habove] at ha
          split at h
          · simp at h
          · split at h
            · simp at h
            · rename_i info hinfo
              split at h
              · simp at h
              · rename_i hfull
                rw [get_rank_capacity_info_of_mem hw users winner.rank_numeral] at hinfo
                have hinfo2 := (Option.some.injEq _ _).mp hinfo
                refine ⟨ha, ?_⟩
                rw [← hinfo2] at hfull
                simp only [decide_eq_true_eq] at hfull
                omega
    · rintro ⟨h1, h2⟩
      have hl := is_rank_above_tier_mem h1
      unfold can_rank_change_occur
      rw [h1]
      simp only [Bool.not_true, Bool.false_eq_true, if_false,
        get_rank_capacity_info_of_mem hl users loser.rank_numeral,
        get_rank_capacity_info_of_mem hw users winner.rank_numeral]
      have hfull : decide (rank_capacity winner.tier winner.rank_numeral ≤
          rank_occupancy users winner.tier winner.rank_numeral) = false := by
        simp only [decide_eq_false_iff_not]
        omega
      simp [hfull]
  · intro users winner loser hWrows hLrows hWL hne hcount
    have hb := swap_filter_balance winner.discord_id loser.discord_id
      winner.tier winner.rank_numeral loser.tier loser.rank_numeral hne hWL
      users hWrows hLrows
    unfold rank_occupancy swap_ranks
    rw [hcount] at hb
    omega

/-- Witness for C4 on a concrete two-user database: winner in Bronze IV,
loser directly above in Bronze III, with room in Bronze IV. -/
theorem can_rank_change_occur_spec_witness :
    ((⟨1, "Bronze", "IV", true⟩ : UserRow).tier ∈ TIER_HIERARCHY ∧
      (can_rank_change_occur
          [⟨1, "Bronze", "IV", true⟩, ⟨2, "Bronze", "III", true⟩]
          ⟨1, "Bronze", "IV", true⟩ ⟨2, "Bronze", "III", true⟩).map Prod.fst =
        some true) ∧
    rank_occupancy
        (swap_ranks [⟨1, "Bronze", "IV", true⟩, ⟨2, "Bronze", "III", true⟩]
          ⟨1, "Bronze", "IV", true⟩ ⟨2, "Bronze", "III", true⟩) "Bronze" "IV" =
      rank_occupancy [⟨1, "Bronze", "IV", true⟩, ⟨2, "Bronze", "III", true⟩]
        "Bronze" "IV" :=
  ⟨⟨by decide,
    (can_rank_change_occur_spec.2.1
        [⟨1, "Bronze", "IV", true⟩, ⟨2, "Bronze", "III", true⟩]
        ⟨1, "Bronze", "IV", true⟩ ⟨2, "Bronze", "III", true⟩ (by decide)).mpr
      ⟨by decide, by decide⟩⟩,
    can_rank_change_occur_spec.2.2
      [⟨1, "Bronze", "IV", true⟩, ⟨2, "Bronze", "III", true⟩]
      ⟨1, "Bronze", "IV", true⟩ ⟨2, "Bronze", "III", true⟩
      (by decide) (by decide) (by decide) (by decide) (by decide)⟩

/-! ## Challenge transitions (src/systems/challenge_system.py) -/

/-- Python truthiness of an optional integer column: `None` and `0` are
falsy. -/
def truthy : Option ℤ → Bool
  | none => false
  | some t => t ≠ 0

/-- Embedding of `ChallengeSystem.accept_challenge` on a found challenge row:
returns `(success, message)` and the resulting stored row.  `now` is the
current time, `bm_ok` the outcome of the environment-dependent BM
re-validation (`can_user_challenge_rank` plus the user lookups) consulted only
for `bm` challenges.  The accepted-date column is not modelled (no embedded
operation reads it). -/
def accept_challenge (now : ℤ) (bm_ok : Bool) (accepter : ℤ) (c : ChallengeRow) :
    (Bool × String) × ChallengeRow :=
  if c.status ≠ "pending" then ((false, "Challenge is no longer active"), c)
  else if c.expires_at < now then
    ((false, "Challenge has expired"), { c with status := "expired" })
  else if truthy c.challenged_id && c.challenged_id ≠ some accepter then
    ((false, "You cannot accept this challenge"), c)
  else if c.challenger_id = accepter then
    ((false, "You cannot accept your own challenge"), c)
  else if c.challenge_type = "bm" && !bm_ok then
    ((false, "Challenge no longer valid"), c)
  else
    ((true, "Challenge accepted!"),
      { c with status := "accepted", challenged_id := some accepter })

/-- Embedding of `ChallengeSystem.decline_challenge` on a found challenge
row. -/
def decline_challenge (decliner : ℤ) (c : ChallengeRow) :
    (Bool × String) × ChallengeRow :=
  if c.status ≠ "pending" then ((false, "Challenge is no longer active"), c)
  else if truthy c.challenged_id && c.challenged_id ≠ some decliner then
    ((false, "You cannot decline this challenge"), c)
  else if c.challenger_id = decliner then
    ((false, "You cannot decline your own challenge"), c)
  else ((true, "Challenge declined"), { c with status := "declined" })

/-- Embedding of `ChallengeSystem.cancel_challenge` on a found challenge
row. -/
def cancel_challenge (canceller : ℤ) (c : ChallengeRow) :
    (Bool × String) × ChallengeRow :=
  if c.challenger_id ≠ canceller then
    ((false, "You can only cancel your own challenges"), c)
  else if c.status ≠ "pending" then ((false, "Challenge is no longer active"), c)
  else ((true, "Challenge cancelled successfully"), { c with status := "cancelled" })

/-- C8 counterexample: a wrong-actor accept attempt does not always leave the
challenge record unchanged.  Actor 3 tries to accept a pending challenge
addressed to user 2 whose expiry (100) has passed (now = 200): the attempt
fails — but the row is mutated to status `expired` before the actor check
runs. -/
theorem accept_wrong_actor_mutates :
    truthy ((⟨1, some 2, "official", "pending", 100⟩ : ChallengeRow).challenged_id) = true ∧
    (⟨1, some 2, "official", "pending", 100⟩ : ChallengeRow).challenged_id ≠ some 3 ∧
    (accept_challenge 200 true 3 ⟨1, some 2, "official", "pending", 100⟩).1.1 = false ∧
    (accept_challenge 200 true 3 ⟨1, some 2, "official", "pending", 100⟩).2 ≠
      ⟨1, some 2, "official", "pending", 100⟩ := by
  decide

/-- C8 (amended): a challenge transition succeeds only from status `pending`
and only for the permitted actor (accept/decline: a truthy target must equal
the actor and the actor must not be the challenger; cancel: the actor must be
the challenger); wrong-actor, own-challenge and terminal-status attempts all
fail; and every failing attempt leaves the record unchanged, except that a
failing accept on a pending challenge whose expiry has passed marks the row
`expired` (the lazy-expiry step runs before the actor checks). -/
theorem challenge_transition_guards :
    (∀ (now : ℤ) (bm_ok : Bool) (a : ℤ) (c : ChallengeRow),
      ((accept_challenge now bm_ok a c).1.1 = true →
        c.status = "pending" ∧ now ≤ c.expires_at ∧
        (truthy c.challenged_id = true → c.challenged_id = some a) ∧
        c.challenger_id ≠ a) ∧
      ((accept_challenge now bm_ok a c).1.1 = false →
        (accept_challenge now bm_ok a c).2 = c ∨
        (c.status = "pending" ∧ c.expires_at < now ∧
          (accept_challenge now bm_ok a c).2 = { c with status := "expired" })) ∧
      (c.status ≠ "pending" →
        (accept_challenge now bm_ok a c).1.1 = false ∧
        (accept_challenge now bm_ok a c).2 = c) ∧
      ((truthy c.challenged_id = true ∧ c.challenged_id ≠ some a) ∨ c.challenger_id = a →
        (accept_challenge now bm_ok a c).1.1 = false)) ∧
    (∀ (d : ℤ) (c : ChallengeRow),
      ((decline_challenge d c).1.1 = true →
        c.status = "pending" ∧
        (truthy c.challenged_id = true → c.challenged_id = some d) ∧
        c.challenger_id ≠ d) ∧
      ((decline_challenge d c).1.1 = false → (decline_challenge d c).2 = c) ∧
      (c.status ≠ "pending" ∨ (truthy c.challenged_id = true ∧ c.challenged_id ≠ some d) ∨
          c.challenger_id = d →
        (decline_challenge d c).1.1 = false)) ∧
    (∀ (k : ℤ) (c : ChallengeRow),
      ((cancel_challenge k c).1.1 = true → c.status = "pending" ∧ c.challenger_id = k) ∧
      ((cancel_challenge k c).1.1 = false → (cancel_challenge k c).2 = c) ∧
      (c.status ≠ "pending" ∨ c.challenger_id ≠ k →
        (cancel_challenge k c).1.1 = false)) := by
  refine ⟨?_, ?_, ?_⟩
  · intro now bm_ok a c
    unfold accept_challenge
    split_ifs with h1 h2 h3 h4 h5 <;> simp_all
    all_goals tauto
  · intro d c
    unfold decline_challenge
    split_ifs with h1 h2 h3 <;> simp_all
    all_goals tauto
  · intro k c
    unfold cancel_challenge
    split_ifs with h1 h2 <;>
      simp_all

/-- Witness for the amended C8: a wrong-actor decline attempt on a concrete
pending challenge fails. -/
theorem challenge_transition_guards_witness :
    ((⟨1, some 2, "official", "pending", 100⟩ : ChallengeRow).status ≠ "pending" ∨
      (truthy ((⟨1, some 2, "official", "pending", 100⟩ : ChallengeRow).challenged_id) = true ∧
        (⟨1, some 2, "official", "pending", 100⟩ : ChallengeRow).challenged_id ≠ some 3) ∨
      (⟨1, some 2, "official", "pending", 100⟩ : ChallengeRow).challenger_id = 3) ∧
    (decline_challenge 3 ⟨1, some 2, "official", "pending", 100⟩).1.1 = false :=
  ⟨Or.inr (Or.inl ⟨by decide, by decide⟩),
    (challenge_transition_guards.2.1 3 ⟨1, some 2, "official", "pending", 100⟩).2.2
      (Or.inr (Or.inl ⟨by decide, by decide⟩))⟩

/-- The duplicate-check of `ChallengeSystem.create_challenge`: the
`SELECT COUNT(*)` guard matches a pending, unexpired challenge by the same
challenger of the same type.  (Whether two near-simultaneous invocations can
both pass this check before either INSERT commits depends on the asyncio
scheduling and SQLite connection isolation, which this sequential embedding
does not represent.) -/
def has_active_challenge (now : ℤ) (rows : List ChallengeRow)
    (challenger : ℤ) (challenge_type : String) : Bool :=
  rows.any (fun c => c.challenger_id = challenger &&
    c.challenge_type = challenge_type && c.status = "pending" && now < c.expires_at)

/-- Sequentially, once a pending unexpired challenge row by a challenger of a
given type is in the table, a second create attempt by the same challenger of
the same type is rejected by the duplicate-check guard. -/
lemma second_create_rejected (now : ℤ) (rows : List ChallengeRow)
    (challenger : ℤ) (challenge_type : String) (e : ℤ) (he : now < e) :
    has_active_challenge now (rows ++ [⟨challenger, none, challenge_type, "pending", e⟩])
      challenger challenge_type = true := by
  simp [has_active_challenge, he]

end BladeBot
